import Mathlib

/-! ProyectoIB: the WebSocket hub of `src/index.js`

A shallow embedding of the connection / session / broadcast engine of
`src/index.js`: the global state (`clients`, `lastData`, `activeUserId`), the
per-connection closure variables (`clientType`, `deviceType`, `deviceId`) and
the three handlers (`ws.on('message')`, `ws.on('close')`, `broadcastToWeb`,
`guardarLecturaEnBD`), followed by theorems about them.

Side effects (`client.send`, `ws.send`, `db.query`) are recorded, in program
order, as a list of `Effect`s returned next to the new state.  The token
verifier (`jwt.verify`), the transport state of each socket
(`client.readyState`) and the clock (`Date.now()`) are inputs of every step.
-/

namespace ProyectoIB

/-! ## JavaScript values -/

/-- The JavaScript values the handlers can see: what `JSON.parse` produces
(`null`, booleans, numbers, strings, and arrays or objects), plus `undefined`
for a field that is absent. Of an array or object only two things are kept: its
reference identity, and whether converting it to a string succeeds
(`printable`); the conversion throws a TypeError for an object with an own
`toString` key such as `{"toString": null}`, or an array holding one. -/
inductive JsVal where
  | undefined : JsVal
  | null : JsVal
  | bool (b : Bool) : JsVal
  | num (q : ℚ) : JsVal
  | str (s : String) : JsVal
  | obj (ref : Nat) (printable : Bool) : JsVal
  deriving DecidableEq

namespace JsVal

/-- JavaScript truthiness (`if (v)`, `!v`, `v || w`): `undefined`, `null`,
`false`, `0` and `""` are falsy, everything else is truthy. -/
def truthy : JsVal → Bool
  | undefined => false
  | null => false
  | bool b => b
  | num q => decide (q ≠ 0)
  | str s => decide (s ≠ "")
  | obj _ _ => true

/-- The JavaScript operator `a || b`. -/
def or (a b : JsVal) : JsVal := if a.truthy then a else b

/-- Whether the string conversion of a template literal returns (`true`) or
throws (`false`): every primitive converts, an object may not. -/
def printable : JsVal → Bool
  | obj _ p => p
  | _ => true

/-- The test `v !== undefined && v !== null` of the sensor-data branch. -/
def present (v : JsVal) : Bool := decide (v ≠ undefined) && decide (v ≠ null)

end JsVal

/-! ## Data model -/

/-- A WebSocket connection (`ws`), identified by a number. -/
abbrev Conn := Nat

/-- The values `clientType` takes once it is no longer `null`. -/
inductive Role where
  | device : Role
  | webClient : Role
  deriving DecidableEq

/-- The closure variables of one `wss.on('connection')` callback. `clientType`
is `none` while it is still `null`. -/
structure ConnVars where
  clientType : Option Role
  deviceType : JsVal
  deviceId : JsVal
  deriving DecidableEq

/-- The value stored in `clients.devices`: `{ ws, type, id }`. -/
structure DeviceEntry where
  ws : Conn
  type : JsVal
  id : JsVal
  deriving DecidableEq

/-- The global `lastData`; `timestamp` is `none` while it is `null`. -/
structure LastData where
  temperatura : JsVal
  pulso : JsVal
  spo2 : JsVal
  timestamp : Option Nat
  deriving DecidableEq

/-- The module-level state of `index.js` together with the closure variables
of every connection. `devices` is the `Map` and `webClients` the `Set`, both in
insertion order. -/
structure ServerState where
  devices : List (JsVal × DeviceEntry)
  webClients : List Conn
  lastData : LastData
  activeUserId : JsVal
  conns : Conn → ConnVars

/-- The `status` strings of the outgoing events. -/
inductive Status where
  | connected : Status
  | disconnected : Status
  deriving DecidableEq

/-- The objects handed to `JSON.stringify` before a send. -/
inductive OutEvent where
  | deviceStatus (device : JsVal) (status : Status) (deviceId : Option JsVal) : OutEvent
  | devicesStatus (temperatura pulso : Status) : OutEvent
  | sensorData (temperatura pulso spo2 : JsVal) (timestamp : Option Nat) : OutEvent
  deriving DecidableEq

/-- An observable side effect of a handler. `dbInsert` carries the parameter
array of the `INSERT INTO readings` query, in its order
`[activeUserId, pulso, spo2, temperatura, deviceId]`. -/
inductive Effect where
  | send (client : Conn) (data : OutEvent) : Effect
  | dbInsert (userId pulso spo2 temperatura deviceId : JsVal) : Effect
  deriving DecidableEq

/-- The fields of a parsed inbound message the handler reads; an absent field
is `undefined`. -/
structure Msg where
  type : JsVal
  deviceType : JsVal := JsVal.undefined
  deviceId : JsVal := JsVal.undefined
  token : JsVal := JsVal.undefined
  temperatura : JsVal := JsVal.undefined
  pulso : JsVal := JsVal.undefined
  spo2 : JsVal := JsVal.undefined
  deriving DecidableEq

/-- What a handler reads from outside the module while it runs.
`verify tok` is the outcome of the inner `try` block of the web-client branch:
`some decoded.id` when `jwt.verify(tok, JWT_SECRET)` returns and the log line
after the assignment is written, `none` when an exception reaches the `catch`.
`isOpen c` is `c.readyState === WebSocket.OPEN`; `now` is `Date.now()`. -/
structure Env where
  verify : JsVal → Option JsVal
  isOpen : Conn → Bool
  now : Nat

/-- The state right after the module is loaded. -/
def initialState : ServerState where
  devices := []
  webClients := []
  lastData := { temperatura := JsVal.null, pulso := JsVal.null, spo2 := JsVal.null,
                timestamp := none }
  activeUserId := JsVal.null
  conns := fun _ => { clientType := none, deviceType := JsVal.null, deviceId := JsVal.null }

/-! ## `Map` and `Set` primitives -/

/-- The method `Map.prototype.set`: replace the value of an existing key in place, or
append a new key. -/
def mapSet (m : List (JsVal × DeviceEntry)) (k : JsVal) (v : DeviceEntry) :
    List (JsVal × DeviceEntry) :=
  if m.any (fun p => decide (p.1 = k)) then
    m.map (fun p => if p.1 = k then (k, v) else p)
  else m ++ [(k, v)]

/-- The method `Map.prototype.delete`. -/
def mapDelete (m : List (JsVal × DeviceEntry)) (k : JsVal) : List (JsVal × DeviceEntry) :=
  m.filter (fun p => decide (p.1 ≠ k))

/-- The method `Set.prototype.add`. -/
def setAdd (s : List Conn) (c : Conn) : List Conn :=
  if c ∈ s then s else s ++ [c]

/-- The method `Set.prototype.delete`. -/
def setDelete (s : List Conn) (c : Conn) : List Conn :=
  s.filter (fun x => decide (x ≠ c))

/-! ## Handlers -/

/-- The function `broadcastToWeb(data)`: one `client.send` per member of `clients.webClients`
whose `readyState` is `OPEN`, in iteration order; the state is returned as it
was. -/
def broadcastToWeb (env : Env) (s : ServerState) (data : OutEvent) :
    ServerState × List Effect :=
  (s, (s.webClients.filter env.isOpen).map (fun client => Effect.send client data))

/-- The function `guardarLecturaEnBD(temperatura, pulso, spo2, deviceId)`: the two
guards on `activeUserId` and on the three values, then the `db.query` insert. -/
def guardarLecturaEnBD (s : ServerState) (temperatura pulso spo2 deviceId : JsVal) :
    List Effect :=
  if !s.activeUserId.truthy then []
  else if !temperatura.truthy && !pulso.truthy && !spo2.truthy then []
  else [Effect.dbInsert s.activeUserId pulso spo2 temperatura deviceId]

/-- The `data.type === 'device'` branch. The log line between
`clients.devices.set` and `broadcastToWeb` converts `deviceType` and `deviceId`
to strings; when that throws, the outer `catch` takes over and the broadcast is
not reached. -/
def onDevice (env : Env) (s : ServerState) (ws : Conn) (data : Msg) :
    ServerState × List Effect :=
  let deviceType := data.deviceType
  let deviceId := data.deviceId.or (JsVal.str "unknown")
  let s1 : ServerState :=
    { s with
      conns := Function.update s.conns ws
        { clientType := some Role.device, deviceType := deviceType, deviceId := deviceId }
      devices := mapSet s.devices deviceId { ws := ws, type := deviceType, id := deviceId } }
  if deviceType.printable && deviceId.printable then
    broadcastToWeb env s1 (OutEvent.deviceStatus deviceType Status.connected (some deviceId))
  else (s1, [])

/-- The test `Array.from(clients.devices.values()).some(d => d.type === cls)` rendered
as the status string. -/
def classStatus (s : ServerState) (cls : String) : Status :=
  if s.devices.any (fun p => decide (p.2.type = JsVal.str cls)) then Status.connected
  else Status.disconnected

/-- The `data.type === 'web-client'` branch. -/
def onWebClient (env : Env) (s : ServerState) (ws : Conn) (data : Msg) :
    ServerState × List Effect :=
  let activeUserId :=
    if data.token.truthy then
      match env.verify data.token with
      | some decodedId => decodedId
      | none => JsVal.null
    else s.activeUserId
  let s1 : ServerState :=
    { s with
      conns := Function.update s.conns ws { s.conns ws with clientType := some Role.webClient }
      activeUserId := activeUserId
      webClients := setAdd s.webClients ws }
  let devicesStatus :=
    OutEvent.devicesStatus (classStatus s1 "temperatura") (classStatus s1 "pulso")
  (s1, Effect.send ws devicesStatus ::
    (if s1.lastData.pulso ≠ JsVal.null ∨ s1.lastData.temperatura ≠ JsVal.null then
      [Effect.send ws (OutEvent.sensorData s1.lastData.temperatura s1.lastData.pulso
        s1.lastData.spo2 s1.lastData.timestamp)]
    else []))

/-- The three guarded assignments to `lastData` plus the timestamp refresh of
the sensor-data branch. -/
def mergeReport (l : LastData) (data : Msg) (now : Nat) : LastData :=
  { temperatura := if data.temperatura.present then data.temperatura else l.temperatura
    pulso := if data.pulso.present then data.pulso else l.pulso
    spo2 := if data.spo2.present then data.spo2 else l.spo2
    timestamp := some now }

/-- The local flag `hasNewData` at the end of the three guarded assignments. -/
def hasNewData (data : Msg) : Bool :=
  data.temperatura.present || data.pulso.present || data.spo2.present

/-- The `data.type === 'sensor-data'` branch. -/
def onSensorData (env : Env) (s : ServerState) (ws : Conn) (data : Msg) :
    ServerState × List Effect :=
  let s1 : ServerState := { s with lastData := mergeReport s.lastData data env.now }
  let saved :=
    if hasNewData data then
      guardarLecturaEnBD s1 s1.lastData.temperatura s1.lastData.pulso s1.lastData.spo2
        ((data.deviceId.or (s.conns ws).deviceId).or (JsVal.str "unknown"))
    else []
  let r := broadcastToWeb env s1
    (OutEvent.sensorData s1.lastData.temperatura s1.lastData.pulso s1.lastData.spo2
      s1.lastData.timestamp)
  (r.1, saved ++ r.2)

/-- The handler `ws.on('message', ...)`. `raw` is `none` when `JSON.parse` throws or returns
`null` (then `data.type` throws): the `catch` logs and nothing has changed. -/
def onMessage (env : Env) (s : ServerState) (ws : Conn) (raw : Option Msg) :
    ServerState × List Effect :=
  match raw with
  | none => (s, [])
  | some data =>
    if data.type = JsVal.str "device" then onDevice env s ws data
    else if data.type = JsVal.str "web-client" then onWebClient env s ws data
    else if data.type = JsVal.str "sensor-data" then onSensorData env s ws data
    else (s, [])

/-- The handler `ws.on('close', ...)`. In the device branch the log line right
after `clients.devices.delete` converts `deviceType` and `deviceId` to strings;
when that throws, the exception leaves the handler there: the entry is deleted,
nothing is cleared and nothing is broadcast. -/
def onClose (env : Env) (s : ServerState) (ws : Conn) : ServerState × List Effect :=
  let v := s.conns ws
  if v.clientType = some Role.device ∧ v.deviceId.truthy = true then
    let s0 : ServerState := { s with devices := mapDelete s.devices v.deviceId }
    if v.deviceType.printable && v.deviceId.printable then
      let l := s0.lastData
      let l1 : LastData :=
        if v.deviceType = JsVal.str "pulso" then
          { l with pulso := JsVal.null, spo2 := JsVal.null }
        else if v.deviceType = JsVal.str "temperatura" then { l with temperatura := JsVal.null }
        else l
      let s1 : ServerState := { s0 with lastData := l1 }
      broadcastToWeb env s1 (OutEvent.deviceStatus v.deviceType Status.disconnected none)
    else (s0, [])
  else if v.clientType = some Role.webClient then
    let w := setDelete s.webClients ws
    ({ s with webClients := w,
              activeUserId := if w.length = 0 then JsVal.null else s.activeUserId }, [])
  else (s, [])

/-! ## Runs -/

/-- What can happen on a connection. -/
inductive ConnEvent where
  | message (ws : Conn) (raw : Option Msg) : ConnEvent
  | close (ws : Conn) : ConnEvent

/-- The connection an event happens on. -/
def ConnEvent.conn : ConnEvent → Conn
  | ConnEvent.message ws _ => ws
  | ConnEvent.close ws => ws

/-- One handler invocation. -/
def step (env : Env) (s : ServerState) : ConnEvent → ServerState × List Effect
  | ConnEvent.message ws raw => onMessage env s ws raw
  | ConnEvent.close ws => onClose env s ws

/-- A sequence of handler invocations, each with its own environment; the
effects are concatenated in order. -/
def run (s : ServerState) : List (Env × ConnEvent) → ServerState × List Effect
  | [] => (s, [])
  | (env, ev) :: rest =>
    let r := step env s ev
    let r2 := run r.1 rest
    (r2.1, r.2 ++ r2.2)

/-- The states the server can be in: `Reachable closed s` holds when `s` is the
state after some sequence of events from `initialState` in which no event
happens on a connection after its `close` (the `ws` library emits `close` once
and nothing after it); `closed` lists the connections closed so far. -/
inductive Reachable : List Conn → ServerState → Prop where
  | start : Reachable [] initialState
  | message {closed : List Conn} {s : ServerState} (env : Env) (ws : Conn)
      (raw : Option Msg) :
      Reachable closed s → ws ∉ closed → Reachable closed (onMessage env s ws raw).1
  | close {closed : List Conn} {s : ServerState} (env : Env) (ws : Conn) :
      Reachable closed s → ws ∉ closed → Reachable (ws :: closed) (onClose env s ws).1

/-- Number of `dbInsert` effects in a list of effects. -/
def insertCount (es : List Effect) : Nat :=
  es.countP (fun e => match e with
    | Effect.dbInsert _ _ _ _ _ => true
    | Effect.send _ _ => false)

/-- The latest value of a field over a list of reports, following the wording
"the value that field had in the latest message in which it was present and
non-null, or its initial value if no message carried it". -/
def latestReported (field : Msg → JsVal) (initial : JsVal) (ms : List Msg) : JsVal :=
  match ms.reverse.find?
      (fun m => decide (field m ≠ JsVal.undefined) && decide (field m ≠ JsVal.null)) with
  | some m => field m
  | none => initial

/-- The events of a list of sensor reports: report `i` arrives on its own
connection under its own environment. -/
def reportEvents (rs : List (Env × Conn × Msg)) : List (Env × ConnEvent) :=
  rs.map (fun r => (r.1, ConnEvent.message r.2.1 (some r.2.2)))

/-- An environment for examples: the token `"good"` verifies to user 7, every
other token is rejected; every socket is open. -/
def demoEnv (now : Nat) : Env where
  verify := fun t => if t = JsVal.str "good" then some (JsVal.num 7) else none
  isOpen := fun _ => true
  now := now

/-! ## Invariant and example states -/

/-- What holds in every reachable state: the observer set has no duplicates, a
connection whose `clientType` is `'device'` has a truthy `deviceId`, and a
connection that is not yet closed and whose `clientType` is `'web-client'` is a
member of the observer set. -/
structure Inv (closed : List Conn) (s : ServerState) : Prop where
  nodup : s.webClients.Nodup
  deviceId_truthy : ∀ c, (s.conns c).clientType = some Role.device →
    (s.conns c).deviceId.truthy = true
  observer_mem : ∀ c, c ∉ closed → (s.conns c).clientType = some Role.webClient →
    c ∈ s.webClients

/-- Connection 1 registers as the pulse device "d1" and reports
pulso 72, spo2 98; connection 2 registers as the temperature device "t1" and
reports temperatura 36. -/
def twoDevicesState : ServerState :=
  (onMessage (demoEnv 4)
    (onMessage (demoEnv 3)
      (onMessage (demoEnv 2)
        (onMessage (demoEnv 1) initialState 1
          (some { type := JsVal.str "device", deviceType := JsVal.str "pulso",
                  deviceId := JsVal.str "d1" })).1
        1 (some { type := JsVal.str "sensor-data", pulso := JsVal.num 72,
                  spo2 := JsVal.num 98 })).1
      2 (some { type := JsVal.str "device", deviceType := JsVal.str "temperatura",
                deviceId := JsVal.str "t1" })).1
    2 (some { type := JsVal.str "sensor-data", temperatura := JsVal.num 36 })).1

/-- The state of `twoDevicesState` after connection 3 registered as observer
with the token "good": the active user is 7. -/
def observedState : ServerState :=
  (onMessage (demoEnv 5) twoDevicesState 3
    (some { type := JsVal.str "web-client", token := JsVal.str "good" })).1

/-- Connection 1 registers as the pulse device "d1", reports pulso 72 and
spo2 98, and then sends 'web-client' (without a token). -/
def deviceTurnedObserverEvents : List (Env × ConnEvent) :=
  [(demoEnv 1, ConnEvent.message 1
      (some { type := JsVal.str "device", deviceType := JsVal.str "pulso",
              deviceId := JsVal.str "d1" })),
   (demoEnv 2, ConnEvent.message 1
      (some { type := JsVal.str "sensor-data", pulso := JsVal.num 72,
              spo2 := JsVal.num 98 })),
   (demoEnv 3, ConnEvent.message 1 (some { type := JsVal.str "web-client" }))]

/-- The role a single event gives connection `c`: device for a 'device'
message on `c`, observer for a 'web-client' message on `c`, and none for
every other event (other message types, unparseable messages, closes, and
anything on another connection). -/
def classifiedAs (c : Conn) (ev : ConnEvent) : Option Role :=
  match ev with
  | ConnEvent.message ws (some data) =>
    if ws = c then
      if data.type = JsVal.str "device" then some Role.device
      else if data.type = JsVal.str "web-client" then some Role.webClient
      else none
    else none
  | _ => none

/-- The role of connection `c` after a list of events, following the wording
"the one set by the latest 'device' or 'web-client' message it sent": the role
given by the last event of the list that classifies `c`, or the role `c` had
before when there is none. -/
def latestRole (c : Conn) (before : Option Role) (evs : List (Env × ConnEvent)) :
    Option Role :=
  match evs.reverse.findSome? (fun e => classifiedAs c e.2) with
  | some r => some r
  | none => before

/-- A mixed run for connections 1 and 2: 1 joins as observer, 2 registers as
device, 1 reports, 1 registers as device, 2 reports, 2 joins as observer,
1 sends an unknown message type, 2 closes. -/
def mixedRoleEvents : List (Env × ConnEvent) :=
  [(demoEnv 1, ConnEvent.message 1 (some { type := JsVal.str "web-client" })),
   (demoEnv 2, ConnEvent.message 2
      (some { type := JsVal.str "device", deviceType := JsVal.str "temperatura",
              deviceId := JsVal.str "t1" })),
   (demoEnv 3, ConnEvent.message 1
      (some { type := JsVal.str "sensor-data", pulso := JsVal.num 72 })),
   (demoEnv 4, ConnEvent.message 1
      (some { type := JsVal.str "device", deviceType := JsVal.str "pulso",
              deviceId := JsVal.str "d1" })),
   (demoEnv 5, ConnEvent.message 2
      (some { type := JsVal.str "sensor-data", temperatura := JsVal.num 36 })),
   (demoEnv 6, ConnEvent.message 2 (some { type := JsVal.str "web-client" })),
   (demoEnv 7, ConnEvent.message 1 (some { type := JsVal.str "ping" })),
   (demoEnv 8, ConnEvent.close 2)]

/-! ## Basic facts -/

theorem or_unknown_truthy (a : JsVal) : (a.or (JsVal.str "unknown")).truthy = true := by
  unfold JsVal.or
  split
  · assumption
  · decide

theorem mem_setDelete (l : List Conn) (c x : Conn) :
    x ∈ setDelete l c ↔ x ∈ l ∧ x ≠ c := by
  simp [setDelete]

theorem nodup_setAdd (l : List Conn) (c : Conn) (h : l.Nodup) : (setAdd l c).Nodup := by
  unfold setAdd
  split
  · exact h
  · rename_i hc
    exact List.Nodup.append h (List.nodup_singleton c) (by simpa using hc)

theorem nodup_setDelete (l : List Conn) (c : Conn) (h : l.Nodup) : (setDelete l c).Nodup :=
  List.Nodup.filter _ h

theorem mem_setAdd_self (l : List Conn) (c : Conn) : c ∈ setAdd l c := by
  unfold setAdd
  split
  · assumption
  · simp

theorem mem_setAdd_of_mem (l : List Conn) (c x : Conn) (h : x ∈ l) : x ∈ setAdd l c := by
  unfold setAdd
  split
  · exact h
  · simp [h]

/-- A duplicate-free list all of whose members equal `c`, and that contains
`c`, is the singleton. -/
theorem length_eq_one_of_setDelete_nil (l : List Conn) (c : Conn) (hnd : l.Nodup)
    (hc : c ∈ l) (h : (setDelete l c).length = 0) : l.length = 1 := by
  have hall : ∀ x ∈ l, x = c := by
    intro x hx
    by_contra hne
    have : x ∈ setDelete l c := (mem_setDelete l c x).2 ⟨hx, hne⟩
    rw [List.length_eq_zero.1 h] at this
    simp at this
  match l, hnd, hc, hall with
  | [], _, hc, _ => simp at hc
  | [_], _, _, _ => rfl
  | a :: b :: t, hnd, _, hall =>
    have ha : a = c := hall a (by simp)
    have hb : b = c := hall b (by simp)
    subst ha
    subst hb
    simp at hnd

/-! ## Invariants of reachable states -/

theorem inv_initialState : Inv [] initialState where
  nodup := by simp [initialState]
  deviceId_truthy := by intro c h; simp [initialState] at h
  observer_mem := by intro c _ h; simp [initialState] at h

/-- The state after the device branch, whether or not its log line throws. -/
theorem onDevice_fst (env : Env) (s : ServerState) (ws : Conn) (data : Msg) :
    (onDevice env s ws data).1 =
      { s with
        conns := Function.update s.conns ws
          { clientType := some Role.device, deviceType := data.deviceType,
            deviceId := data.deviceId.or (JsVal.str "unknown") }
        devices := mapSet s.devices (data.deviceId.or (JsVal.str "unknown"))
          { ws := ws, type := data.deviceType,
            id := data.deviceId.or (JsVal.str "unknown") } } := by
  unfold onDevice
  simp only
  split <;> rfl

theorem inv_onDevice (env : Env) (closed : List Conn) (s : ServerState) (ws : Conn)
    (data : Msg) (h : Inv closed s) : Inv closed (onDevice env s ws data).1 where
  nodup := by
    rw [onDevice_fst]
    exact h.nodup
  deviceId_truthy := by
    rw [onDevice_fst]
    intro c hc
    by_cases hcw : c = ws
    · subst hcw
      simp [or_unknown_truthy]
    · simp only [Function.update_noteq hcw] at hc ⊢
      exact h.deviceId_truthy c hc
  observer_mem := by
    rw [onDevice_fst]
    intro c hcl hc
    by_cases hcw : c = ws
    · subst hcw
      simp at hc
    · simp only [Function.update_noteq hcw] at hc ⊢
      exact h.observer_mem c hcl hc

theorem inv_onWebClient (env : Env) (closed : List Conn) (s : ServerState) (ws : Conn)
    (data : Msg) (h : Inv closed s) : Inv closed (onWebClient env s ws data).1 where
  nodup := nodup_setAdd _ _ h.nodup
  deviceId_truthy := by
    intro c hc
    by_cases hcw : c = ws
    · subst hcw
      simp [onWebClient] at hc
    · simp only [onWebClient, Function.update_noteq hcw] at hc ⊢
      exact h.deviceId_truthy c hc
  observer_mem := by
    intro c hcl hc
    by_cases hcw : c = ws
    · subst hcw
      exact mem_setAdd_self _ _
    · simp only [onWebClient, Function.update_noteq hcw] at hc ⊢
      exact mem_setAdd_of_mem _ _ _ (h.observer_mem c hcl hc)

theorem inv_onSensorData (env : Env) (closed : List Conn) (s : ServerState) (ws : Conn)
    (data : Msg) (h : Inv closed s) : Inv closed (onSensorData env s ws data).1 where
  nodup := h.nodup
  deviceId_truthy := h.deviceId_truthy
  observer_mem := h.observer_mem

theorem inv_onMessage (env : Env) (closed : List Conn) (s : ServerState) (ws : Conn)
    (raw : Option Msg) (h : Inv closed s) : Inv closed (onMessage env s ws raw).1 := by
  unfold onMessage
  split
  · exact h
  · split
    · exact inv_onDevice env closed s ws _ h
    · split
      · exact inv_onWebClient env closed s ws _ h
      · split
        · exact inv_onSensorData env closed s ws _ h
        · exact h

/-- The close handler by cases: the device branch when the log line is written. -/
theorem onClose_device_logged (env : Env) (s : ServerState) (ws : Conn)
    (hdev : (s.conns ws).clientType = some Role.device)
    (hid : (s.conns ws).deviceId.truthy = true)
    (hp : ((s.conns ws).deviceType.printable && (s.conns ws).deviceId.printable) = true) :
    onClose env s ws =
      broadcastToWeb env
        { s with
          devices := mapDelete s.devices (s.conns ws).deviceId
          lastData :=
            if (s.conns ws).deviceType = JsVal.str "pulso" then
              { s.lastData with pulso := JsVal.null, spo2 := JsVal.null }
            else if (s.conns ws).deviceType = JsVal.str "temperatura" then
              { s.lastData with temperatura := JsVal.null }
            else s.lastData }
        (OutEvent.deviceStatus (s.conns ws).deviceType Status.disconnected none) := by
  unfold onClose
  simp only
  rw [if_pos ⟨hdev, hid⟩, if_pos hp]

/-- The close handler by cases: the device branch when the log line throws. -/
theorem onClose_device_thrown (env : Env) (s : ServerState) (ws : Conn)
    (hdev : (s.conns ws).clientType = some Role.device)
    (hid : (s.conns ws).deviceId.truthy = true)
    (hp : ¬ ((s.conns ws).deviceType.printable && (s.conns ws).deviceId.printable) = true) :
    onClose env s ws =
      ({ s with devices := mapDelete s.devices (s.conns ws).deviceId }, []) := by
  unfold onClose
  simp only
  rw [if_pos ⟨hdev, hid⟩, if_neg hp]

/-- The close handler by cases: the web-client branch. -/
theorem onClose_observer (env : Env) (s : ServerState) (ws : Conn)
    (hweb : (s.conns ws).clientType = some Role.webClient) :
    onClose env s ws =
      ({ s with
         webClients := setDelete s.webClients ws
         activeUserId :=
           if (setDelete s.webClients ws).length = 0 then JsVal.null else s.activeUserId },
       []) := by
  unfold onClose
  simp only
  rw [if_neg (fun h => by rw [hweb] at h; exact absurd h.1 (by decide)), if_pos hweb]

/-- The close handler by cases: neither branch. -/
theorem onClose_neither (env : Env) (s : ServerState) (ws : Conn)
    (hdev : ¬ ((s.conns ws).clientType = some Role.device ∧
      (s.conns ws).deviceId.truthy = true))
    (hweb : (s.conns ws).clientType ≠ some Role.webClient) :
    onClose env s ws = (s, []) := by
  unfold onClose
  simp only
  rw [if_neg hdev, if_neg hweb]

theorem onClose_conns (env : Env) (s : ServerState) (ws : Conn) :
    (onClose env s ws).1.conns = s.conns := by
  by_cases hd : (s.conns ws).clientType = some Role.device ∧
      (s.conns ws).deviceId.truthy = true
  · by_cases hp : ((s.conns ws).deviceType.printable && (s.conns ws).deviceId.printable) = true
    · rw [onClose_device_logged env s ws hd.1 hd.2 hp]
      rfl
    · rw [onClose_device_thrown env s ws hd.1 hd.2 hp]
  · by_cases hw : (s.conns ws).clientType = some Role.webClient
    · rw [onClose_observer env s ws hw]
    · rw [onClose_neither env s ws hd hw]

theorem onClose_webClients (env : Env) (s : ServerState) (ws : Conn) :
    (onClose env s ws).1.webClients =
      if (s.conns ws).clientType = some Role.webClient then setDelete s.webClients ws
      else s.webClients := by
  by_cases hd : (s.conns ws).clientType = some Role.device ∧
      (s.conns ws).deviceId.truthy = true
  · have hnw : (s.conns ws).clientType ≠ some Role.webClient := by
      rw [hd.1]
      decide
    rw [if_neg hnw]
    by_cases hp : ((s.conns ws).deviceType.printable && (s.conns ws).deviceId.printable) = true
    · rw [onClose_device_logged env s ws hd.1 hd.2 hp]
      rfl
    · rw [onClose_device_thrown env s ws hd.1 hd.2 hp]
  · by_cases hw : (s.conns ws).clientType = some Role.webClient
    · rw [onClose_observer env s ws hw, if_pos hw]
    · rw [onClose_neither env s ws hd hw, if_neg hw]

theorem onClose_timestamp (env : Env) (s : ServerState) (ws : Conn) :
    (onClose env s ws).1.lastData.timestamp = s.lastData.timestamp := by
  by_cases hd : (s.conns ws).clientType = some Role.device ∧
      (s.conns ws).deviceId.truthy = true
  · by_cases hp : ((s.conns ws).deviceType.printable && (s.conns ws).deviceId.printable) = true
    · rw [onClose_device_logged env s ws hd.1 hd.2 hp]
      simp only [broadcastToWeb]
      split
      · rfl
      · split <;> rfl
    · rw [onClose_device_thrown env s ws hd.1 hd.2 hp]
  · by_cases hw : (s.conns ws).clientType = some Role.webClient
    · rw [onClose_observer env s ws hw]
    · rw [onClose_neither env s ws hd hw]

theorem onClose_devices_of_device (env : Env) (s : ServerState) (ws : Conn)
    (hdev : (s.conns ws).clientType = some Role.device)
    (hid : (s.conns ws).deviceId.truthy = true) :
    (onClose env s ws).1.devices = mapDelete s.devices (s.conns ws).deviceId := by
  by_cases hp : ((s.conns ws).deviceType.printable && (s.conns ws).deviceId.printable) = true
  · rw [onClose_device_logged env s ws hdev hid hp]
    rfl
  · rw [onClose_device_thrown env s ws hdev hid hp]

theorem onClose_devices_of_not_device (env : Env) (s : ServerState) (ws : Conn)
    (hdev : (s.conns ws).clientType ≠ some Role.device) :
    (onClose env s ws).1.devices = s.devices := by
  by_cases hw : (s.conns ws).clientType = some Role.webClient
  · rw [onClose_observer env s ws hw]
  · rw [onClose_neither env s ws (fun h => hdev h.1) hw]

theorem onClose_lastData_of_not_device (env : Env) (s : ServerState) (ws : Conn)
    (hdev : (s.conns ws).clientType ≠ some Role.device) :
    (onClose env s ws).1.lastData = s.lastData := by
  by_cases hw : (s.conns ws).clientType = some Role.webClient
  · rw [onClose_observer env s ws hw]
  · rw [onClose_neither env s ws (fun h => hdev h.1) hw]

theorem inv_onClose (env : Env) (closed : List Conn) (s : ServerState) (ws : Conn)
    (h : Inv closed s) : Inv (ws :: closed) (onClose env s ws).1 where
  nodup := by
    rw [onClose_webClients]
    split
    · exact nodup_setDelete _ _ h.nodup
    · exact h.nodup
  deviceId_truthy := by
    rw [onClose_conns]
    exact h.deviceId_truthy
  observer_mem := by
    rw [onClose_conns, onClose_webClients]
    intro c hcl hc
    have hne : c ≠ ws := fun e => hcl (by simp [e])
    have hmem := h.observer_mem c (fun hmem => hcl (List.mem_cons_of_mem _ hmem)) hc
    split
    · exact (mem_setDelete _ _ _).2 ⟨hmem, hne⟩
    · exact hmem

theorem inv_of_reachable {closed : List Conn} {s : ServerState} (h : Reachable closed s) :
    Inv closed s := by
  induction h with
  | start => exact inv_initialState
  | message env ws raw _ _ ih => exact inv_onMessage env _ _ ws raw ih
  | close env ws _ _ ih => exact inv_onClose env _ _ ws ih

/-! ## C7: broadcast -/

/-- C7. For every observer set (a `Set`, so without duplicates) and every event,
`broadcastToWeb` sends that event exactly once to each member of the observer
set whose transport is OPEN when it is invoked, sends nothing to any other
connection, sends nothing else, and leaves the state (the observer set
included) as it was. -/
theorem broadcastToWeb_delivers_to_open_observers (env : Env) (s : ServerState)
    (data : OutEvent) (hset : s.webClients.Nodup) :
    (broadcastToWeb env s data).1.webClients = s.webClients ∧
    (∀ e ∈ (broadcastToWeb env s data).2, ∃ c, e = Effect.send c data) ∧
    (∀ (c : Conn) (d : OutEvent), (broadcastToWeb env s data).2.count (Effect.send c d) =
      if c ∈ s.webClients ∧ env.isOpen c = true ∧ d = data then 1 else 0) := by
  refine ⟨rfl, ?_, ?_⟩
  · intro e he
    simp only [broadcastToWeb, List.mem_map] at he
    obtain ⟨c, _, rfl⟩ := he
    exact ⟨c, rfl⟩
  · intro c d
    have hinj : Function.Injective (fun client => Effect.send client data) := by
      intro a b hab
      simpa using hab
    by_cases hd : d = data
    · subst hd
      have hcount : (broadcastToWeb env s d).2.count (Effect.send c d) =
          (s.webClients.filter env.isOpen).count c :=
        List.count_map_of_injective _ (fun client => Effect.send client d) hinj c
      rw [hcount]
      have hnd : (s.webClients.filter env.isOpen).Nodup := List.Nodup.filter _ hset
      rw [List.count_eq_of_nodup hnd]
      simp [List.mem_filter]
    · have hnot : Effect.send c d ∉ (broadcastToWeb env s data).2 := by
        simp only [broadcastToWeb, List.mem_map, not_exists, not_and]
        intro x _ hx
        injection hx with _ h2
        exact hd h2.symm
      rw [List.count_eq_zero_of_not_mem hnot]
      simp [hd]

/-- Witness for C7: observers 1, 2, 3 with only 1 and 3 open. -/
theorem broadcastToWeb_delivers_to_open_observers_witness :
    (broadcastToWeb { demoEnv 0 with isOpen := fun c => decide (c ≠ 2) }
        { initialState with webClients := [1, 2, 3] }
        (OutEvent.devicesStatus Status.connected Status.disconnected)).2 =
      [Effect.send 1 (OutEvent.devicesStatus Status.connected Status.disconnected),
       Effect.send 3 (OutEvent.devicesStatus Status.connected Status.disconnected)] ∧
    ∀ (c : Conn) (d : OutEvent),
      (broadcastToWeb { demoEnv 0 with isOpen := fun c => decide (c ≠ 2) }
        { initialState with webClients := [1, 2, 3] }
        (OutEvent.devicesStatus Status.connected Status.disconnected)).2.count
          (Effect.send c d) =
      if c ∈ [1, 2, 3] ∧ decide (c ≠ 2) = true ∧
          d = OutEvent.devicesStatus Status.connected Status.disconnected then 1 else 0 :=
  ⟨by decide,
   (broadcastToWeb_delivers_to_open_observers
      { demoEnv 0 with isOpen := fun c => decide (c ≠ 2) }
      { initialState with webClients := [1, 2, 3] }
      (OutEvent.devicesStatus Status.connected Status.disconnected) (by decide)).2.2⟩

/-! ## C4: clearing on device disconnect -/

theorem twoDevicesState_reachable : Reachable [] twoDevicesState :=
  Reachable.message _ _ _
    (Reachable.message _ _ _
      (Reachable.message _ _ _
        (Reachable.message _ _ _ Reachable.start (List.not_mem_nil _))
        (List.not_mem_nil _))
      (List.not_mem_nil _))
    (List.not_mem_nil _)

/-- C4, counterexample. Connection 1 registers as a device of class 'pulso'
("d1"), reports pulso 72 and spo2 98, and later sends 'web-client'. It is still
registered as the pulso device "d1" in the device map and its `deviceType` is
still 'pulso', yet when it closes pulso and spo2 stay 72 and 98. -/
theorem onClose_of_device_turned_observer_keeps_fields :
    (run initialState deviceTurnedObserverEvents).1.devices
      = [(JsVal.str "d1", { ws := 1, type := JsVal.str "pulso", id := JsVal.str "d1" })] ∧
    ((run initialState deviceTurnedObserverEvents).1.conns 1).deviceType
      = JsVal.str "pulso" ∧
    (run initialState deviceTurnedObserverEvents).1.lastData.pulso = JsVal.num 72 ∧
    (run initialState deviceTurnedObserverEvents).1.lastData.spo2 = JsVal.num 98 ∧
    (onClose (demoEnv 4) (run initialState deviceTurnedObserverEvents).1 1).1.lastData.pulso
      = JsVal.num 72 ∧
    (onClose (demoEnv 4) (run initialState deviceTurnedObserverEvents).1 1).1.lastData.spo2
      = JsVal.num 98 := by
  decide

/-- C4, amended. In every reachable state, closing a connection whose current
role is device, registered with class 'pulso' and with a deviceId that converts
to a string, sets the snapshot's pulso and spo2 to null and leaves temperatura
unchanged; closing one whose current role is device, registered with class
'temperatura' and with such a deviceId, sets temperatura to null and leaves
pulso and spo2 unchanged; closing a connection whose current role is not
device (one that registered as a device and later sent 'web-client' included)
leaves the snapshot as it was. -/
theorem onClose_clears_fields_of_current_device (env : Env) (closed : List Conn)
    (s : ServerState) (ws : Conn) (hreach : Reachable closed s) :
    ((s.conns ws).clientType = some Role.device →
      (s.conns ws).deviceId.printable = true →
      ((s.conns ws).deviceType = JsVal.str "pulso" →
        (onClose env s ws).1.lastData.pulso = JsVal.null ∧
        (onClose env s ws).1.lastData.spo2 = JsVal.null ∧
        (onClose env s ws).1.lastData.temperatura = s.lastData.temperatura) ∧
      ((s.conns ws).deviceType = JsVal.str "temperatura" →
        (onClose env s ws).1.lastData.temperatura = JsVal.null ∧
        (onClose env s ws).1.lastData.pulso = s.lastData.pulso ∧
        (onClose env s ws).1.lastData.spo2 = s.lastData.spo2)) ∧
    ((s.conns ws).clientType ≠ some Role.device →
      (onClose env s ws).1.lastData = s.lastData) := by
  refine ⟨?_, onClose_lastData_of_not_device env s ws⟩
  intro hdev hprint
  have hid := (inv_of_reachable hreach).deviceId_truthy ws hdev
  constructor
  · intro hty
    have hp : ((s.conns ws).deviceType.printable && (s.conns ws).deviceId.printable) = true := by
      rw [hty, hprint]
      rfl
    rw [onClose_device_logged env s ws hdev hid hp]
    simp [broadcastToWeb, hty]
  · intro hty
    have hp : ((s.conns ws).deviceType.printable && (s.conns ws).deviceId.printable) = true := by
      rw [hty, hprint]
      rfl
    rw [onClose_device_logged env s ws hdev hid hp]
    simp [broadcastToWeb, hty]

/-- Witness for C4 (amended): the pulse device 1 and the temperature device 2
of `twoDevicesState` close, and so does connection 3, which has no role. -/
theorem onClose_clears_fields_of_current_device_witness :
    ((onClose (demoEnv 5) twoDevicesState 1).1.lastData.pulso = JsVal.null ∧
      (onClose (demoEnv 5) twoDevicesState 1).1.lastData.spo2 = JsVal.null ∧
      (onClose (demoEnv 5) twoDevicesState 1).1.lastData.temperatura =
        twoDevicesState.lastData.temperatura) ∧
    ((onClose (demoEnv 5) twoDevicesState 2).1.lastData.temperatura = JsVal.null ∧
      (onClose (demoEnv 5) twoDevicesState 2).1.lastData.pulso =
        twoDevicesState.lastData.pulso ∧
      (onClose (demoEnv 5) twoDevicesState 2).1.lastData.spo2 =
        twoDevicesState.lastData.spo2) ∧
    (onClose (demoEnv 5) twoDevicesState 3).1.lastData = twoDevicesState.lastData ∧
    twoDevicesState.lastData.temperatura = JsVal.num 36 ∧
    twoDevicesState.lastData.pulso = JsVal.num 72 ∧
    twoDevicesState.lastData.spo2 = JsVal.num 98 :=
  ⟨((onClose_clears_fields_of_current_device (demoEnv 5) [] twoDevicesState 1
      twoDevicesState_reachable).1 (by decide) (by decide)).1 (by decide),
   ((onClose_clears_fields_of_current_device (demoEnv 5) [] twoDevicesState 2
      twoDevicesState_reachable).1 (by decide) (by decide)).2 (by decide),
   (onClose_clears_fields_of_current_device (demoEnv 5) [] twoDevicesState 3
      twoDevicesState_reachable).2 (by decide),
   by decide, by decide, by decide⟩

/-! ## C10: the snapshot timestamp -/

/-- C10, counterexample. The pulse device 1 of `twoDevicesState` (timestamp 4)
closes at time 5: pulso and spo2 are cleared, yet the timestamp is still 4. -/
theorem onClose_keeps_stale_timestamp :
    twoDevicesState.lastData.pulso = JsVal.num 72 ∧
    twoDevicesState.lastData.timestamp = some 4 ∧
    (onClose (demoEnv 5) twoDevicesState 1).1.lastData.pulso = JsVal.null ∧
    (onClose (demoEnv 5) twoDevicesState 1).1.lastData.timestamp = some 4 ∧
    (onClose (demoEnv 5) twoDevicesState 1).1.lastData.timestamp ≠ some (demoEnv 5).now := by
  decide

/-- C10, amended. Every sensor-data message, in particular one carrying at
least one non-null field among temperatura, pulso and spo2, sets the snapshot's
timestamp to the current time (also when the written value equals the old
one); the close of a connection, device disconnects that clear fields
included, leaves the timestamp as it was. -/
theorem timestamp_set_by_report_kept_by_close (env : Env) (s : ServerState) (ws : Conn)
    (data : Msg) (hty : data.type = JsVal.str "sensor-data") :
    (onMessage env s ws (some data)).1.lastData.timestamp = some env.now ∧
    (onClose env s ws).1.lastData.timestamp = s.lastData.timestamp := by
  constructor
  · simp [onMessage, hty, onSensorData, broadcastToWeb, mergeReport]
  · exact onClose_timestamp env s ws

/-- Witness for C10 (amended): device 1 of `twoDevicesState` reports the pulso
it already has, at time 9. -/
theorem timestamp_set_by_report_kept_by_close_witness :
    (onMessage (demoEnv 9) twoDevicesState 1
      (some { type := JsVal.str "sensor-data", pulso := JsVal.num 72 })).1.lastData.timestamp
        = some (demoEnv 9).now ∧
    (onClose (demoEnv 9) twoDevicesState 1).1.lastData.timestamp =
      twoDevicesState.lastData.timestamp :=
  timestamp_set_by_report_kept_by_close (demoEnv 9) twoDevicesState 1
    { type := JsVal.str "sensor-data", pulso := JsVal.num 72 } (by decide)

/-! ## C8: the role of a connection -/

/-- C8, counterexample. Connection 1 sends 'web-client' and then 'device': its
role, observer after the first message, is device after the second, and it is
now both in the observer set and the owner of a DeviceEntry. -/
theorem later_classification_changes_role :
    ((onMessage (demoEnv 1) initialState 1
        (some { type := JsVal.str "web-client" })).1.conns 1).clientType
      = some Role.webClient ∧
    ((onMessage (demoEnv 2)
        (onMessage (demoEnv 1) initialState 1 (some { type := JsVal.str "web-client" })).1 1
        (some { type := JsVal.str "device", deviceType := JsVal.str "pulso",
                deviceId := JsVal.str "d1" })).1.conns 1).clientType
      = some Role.device ∧
    (onMessage (demoEnv 2)
        (onMessage (demoEnv 1) initialState 1 (some { type := JsVal.str "web-client" })).1 1
        (some { type := JsVal.str "device", deviceType := JsVal.str "pulso",
                deviceId := JsVal.str "d1" })).1.webClients = [1] ∧
    (onMessage (demoEnv 2)
        (onMessage (demoEnv 1) initialState 1 (some { type := JsVal.str "web-client" })).1 1
        (some { type := JsVal.str "device", deviceType := JsVal.str "pulso",
                deviceId := JsVal.str "d1" })).1.devices
      = [(JsVal.str "d1",
          { ws := 1, type := JsVal.str "pulso", id := JsVal.str "d1" })] := by
  decide

theorem onMessage_device (env : Env) (s : ServerState) (ws : Conn) (data : Msg)
    (hty : data.type = JsVal.str "device") :
    onMessage env s ws (some data) = onDevice env s ws data := by
  simp [onMessage, hty]

theorem onMessage_webClient (env : Env) (s : ServerState) (ws : Conn) (data : Msg)
    (hty : data.type = JsVal.str "web-client") :
    onMessage env s ws (some data) = onWebClient env s ws data := by
  simp [onMessage, hty]

/-- The closure variables after a message that is neither 'device' nor
'web-client'. -/
theorem onMessage_conns_of_not_classification (env : Env) (s : ServerState) (ws : Conn)
    (data : Msg) (hd : data.type ≠ JsVal.str "device")
    (hw : data.type ≠ JsVal.str "web-client") :
    (onMessage env s ws (some data)).1.conns = s.conns := by
  unfold onMessage
  simp only
  rw [if_neg hd, if_neg hw]
  split <;> rfl

/-- One handler invocation changes the role of `c` exactly as `classifiedAs`
says: to the role of a classification message on `c`, and not at all
otherwise. -/
theorem step_clientType (env : Env) (s : ServerState) (ev : ConnEvent) (c : Conn) :
    ((step env s ev).1.conns c).clientType =
      match classifiedAs c ev with
      | some r => some r
      | none => (s.conns c).clientType := by
  cases ev with
  | close ws =>
    simp only [step, classifiedAs]
    rw [onClose_conns]
  | message ws raw =>
    cases raw with
    | none => simp [step, classifiedAs, onMessage]
    | some data =>
      simp only [step, classifiedAs]
      by_cases hd : data.type = JsVal.str "device"
      · rw [onMessage_device env s ws data hd, onDevice_fst]
        by_cases hc : ws = c
        · subst hc
          simp [hd]
        · have hc2 : c ≠ ws := fun e => hc e.symm
          simp [hc, Function.update_noteq hc2]
      · by_cases hw : data.type = JsVal.str "web-client"
        · rw [onMessage_webClient env s ws data hw]
          by_cases hc : ws = c
          · subst hc
            simp [hd, hw, onWebClient]
          · have hc2 : c ≠ ws := fun e => hc e.symm
            simp [hc, onWebClient, Function.update_noteq hc2]
        · rw [onMessage_conns_of_not_classification env s ws data hd hw]
          by_cases hc : ws = c
          · simp [hc, hd, hw]
          · simp [hc]

theorem latestRole_cons (c : Conn) (before : Option Role) (e : Env × ConnEvent)
    (evs : List (Env × ConnEvent)) :
    latestRole c before (e :: evs) =
      latestRole c (match classifiedAs c e.2 with
        | some r => some r
        | none => before) evs := by
  unfold latestRole
  rw [List.reverse_cons, List.findSome?_append]
  cases evs.reverse.findSome? (fun e => classifiedAs c e.2) with
  | some r => simp
  | none =>
    cases hcl : classifiedAs c e.2 with
    | some r => simp [List.findSome?, hcl]
    | none => simp [List.findSome?, hcl]

theorem run_clientType (evs : List (Env × ConnEvent)) (c : Conn) :
    ∀ s : ServerState,
      ((run s evs).1.conns c).clientType = latestRole c (s.conns c).clientType evs := by
  induction evs with
  | nil => intro s; simp [run, latestRole]
  | cons e rest ih =>
    intro s
    rw [latestRole_cons, ← step_clientType e.1 s e.2 c]
    exact ih (step e.1 s e.2).1

/-- C8, amended. For every connection, the role (device or observer) is the one
set by the latest 'device' or 'web-client' message it sent: after any sequence
of events, from any state, the role of a connection is the role of the last
classification message on that connection in the sequence, and its role
before the sequence when there is none, so that a later classification
message of the other kind changes the role while sensor-data messages, other
messages, closes and events on other connections do not. The registry entry
made by the earlier message stays: a 'device' message leaves the observer set
as it was, and a 'web-client' message leaves the device map as it was. -/
theorem role_is_latest_classification (s : ServerState) (evs : List (Env × ConnEvent))
    (c : Conn) :
    ((run s evs).1.conns c).clientType = latestRole c (s.conns c).clientType evs ∧
    (∀ (env : Env) (data : Msg), data.type = JsVal.str "device" →
      (onMessage env s c (some data)).1.webClients = s.webClients) ∧
    (∀ (env : Env) (data : Msg), data.type = JsVal.str "web-client" →
      (onMessage env s c (some data)).1.devices = s.devices) := by
  refine ⟨run_clientType evs c s, ?_, ?_⟩
  · intro env data hty
    rw [onMessage_device env s c data hty, onDevice_fst]
  · intro env data hty
    rw [onMessage_webClient env s c data hty]
    rfl

/-- Witness for C8 (amended): in `mixedRoleEvents` connection 1 ends as device
(its last classification) and connection 2 as observer, connection 3 keeps no
role; an observer that sends 'device' stays in the observer set and a device
that sends 'web-client' keeps its DeviceEntry. -/
theorem role_is_latest_classification_witness :
    (((run initialState mixedRoleEvents).1.conns 1).clientType = some Role.device ∧
      ((run initialState mixedRoleEvents).1.conns 2).clientType = some Role.webClient ∧
      ((run initialState mixedRoleEvents).1.conns 3).clientType = none) ∧
    (onMessage (demoEnv 2)
        (onMessage (demoEnv 1) initialState 1 (some { type := JsVal.str "web-client" })).1 1
        (some { type := JsVal.str "device", deviceType := JsVal.str "pulso",
                deviceId := JsVal.str "d1" })).1.webClients =
      (onMessage (demoEnv 1) initialState 1
        (some { type := JsVal.str "web-client" })).1.webClients ∧
    (onMessage (demoEnv 6) twoDevicesState 1
        (some { type := JsVal.str "web-client" })).1.devices = twoDevicesState.devices :=
  ⟨⟨(role_is_latest_classification initialState mixedRoleEvents 1).1.trans (by decide),
    (role_is_latest_classification initialState mixedRoleEvents 2).1.trans (by decide),
    (role_is_latest_classification initialState mixedRoleEvents 3).1.trans (by decide)⟩,
   (role_is_latest_classification
      (onMessage (demoEnv 1) initialState 1 (some { type := JsVal.str "web-client" })).1
      [] 1).2.1 (demoEnv 2)
      { type := JsVal.str "device", deviceType := JsVal.str "pulso",
        deviceId := JsVal.str "d1" } (by decide),
   (role_is_latest_classification twoDevicesState [] 1).2.2 (demoEnv 6)
      { type := JsVal.str "web-client" } (by decide)⟩

/-! ## C6: the reply to a new observer -/

/-- C6, the code at the failing input. A device reports only spo2 98, then
connection 2 sends 'web-client': the snapshot has a non-null field (spo2), yet
the only thing sent to connection 2 is the devices-status event; no sensor-data
event follows. -/
theorem onWebClient_omits_snapshot_with_only_spo2 :
    (run initialState
      [(demoEnv 1, ConnEvent.message 1
          (some { type := JsVal.str "sensor-data", spo2 := JsVal.num 98 })),
       (demoEnv 2, ConnEvent.message 2
          (some { type := JsVal.str "web-client", token := JsVal.str "good" }))]).2
      = [Effect.send 2 (OutEvent.devicesStatus Status.disconnected Status.disconnected)] ∧
    (run initialState
      [(demoEnv 1, ConnEvent.message 1
          (some { type := JsVal.str "sensor-data", spo2 := JsVal.num 98 })),
       (demoEnv 2, ConnEvent.message 2
          (some { type := JsVal.str "web-client", token := JsVal.str "good" }))]).1.lastData
      = { temperatura := JsVal.null, pulso := JsVal.null, spo2 := JsVal.num 98,
          timestamp := some 1 } := by
  decide

/-! ## C1 and C5: persistence -/

theorem insertCount_append (a b : List Effect) :
    insertCount (a ++ b) = insertCount a + insertCount b := by
  simp [insertCount, List.countP_append]

theorem insertCount_broadcastToWeb (env : Env) (s : ServerState) (data : OutEvent) :
    insertCount (broadcastToWeb env s data).2 = 0 := by
  simp [insertCount, broadcastToWeb, List.countP_eq_zero]

theorem onSensorData_activeUserId (env : Env) (s : ServerState) (ws : Conn) (data : Msg) :
    (onSensorData env s ws data).1.activeUserId = s.activeUserId := rfl

theorem onSensorData_lastData (env : Env) (s : ServerState) (ws : Conn) (data : Msg) :
    (onSensorData env s ws data).1.lastData = mergeReport s.lastData data env.now := rfl

theorem onMessage_sensorData (env : Env) (s : ServerState) (ws : Conn) (data : Msg)
    (hty : data.type = JsVal.str "sensor-data") :
    onMessage env s ws (some data) = onSensorData env s ws data := by
  simp [onMessage, hty]

/-- The number of inserts one sensor-data message causes. -/
theorem insertCount_onSensorData (env : Env) (s : ServerState) (ws : Conn) (data : Msg) :
    insertCount (onSensorData env s ws data).2 =
      if s.activeUserId.truthy = true ∧ hasNewData data = true ∧
          ((mergeReport s.lastData data env.now).temperatura.truthy = true ∨
           (mergeReport s.lastData data env.now).pulso.truthy = true ∨
           (mergeReport s.lastData data env.now).spo2.truthy = true) then 1 else 0 := by
  simp only [onSensorData, insertCount_append, insertCount_broadcastToWeb, Nat.add_zero]
  by_cases hnew : hasNewData data = true
  · by_cases hu : s.activeUserId.truthy = true
    · simp only [hnew, hu, if_true, true_and, guardarLecturaEnBD]
      cases (mergeReport s.lastData data env.now).temperatura.truthy <;>
        cases (mergeReport s.lastData data env.now).pulso.truthy <;>
        cases (mergeReport s.lastData data env.now).spo2.truthy <;>
        simp [insertCount]
    · simp [hnew, hu, guardarLecturaEnBD, insertCount]
  · simp [hnew, insertCount]

theorem hasNewData_iff (data : Msg) :
    hasNewData data = true ↔
      (data.temperatura ≠ JsVal.undefined ∧ data.temperatura ≠ JsVal.null) ∨
      (data.pulso ≠ JsVal.undefined ∧ data.pulso ≠ JsVal.null) ∨
      (data.spo2 ≠ JsVal.undefined ∧ data.spo2 ≠ JsVal.null) := by
  simp [hasNewData, JsVal.present, or_assoc]

theorem insertCount_run_reports (rs : List (Env × Conn × Msg)) :
    ∀ s : ServerState, (∀ r ∈ rs, r.2.2.type = JsVal.str "sensor-data") →
      s.activeUserId = JsVal.null → insertCount (run s (reportEvents rs)).2 = 0 := by
  induction rs with
  | nil => intro s _ _; simp [reportEvents, run, insertCount]
  | cons r rest ih =>
    intro s hall hnull
    have hty : r.2.2.type = JsVal.str "sensor-data" := hall r (by simp)
    have hrest : ∀ x ∈ rest, x.2.2.type = JsVal.str "sensor-data" :=
      fun x hx => hall x (by simp [hx])
    have hstep : step r.1 s (ConnEvent.message r.2.1 (some r.2.2)) =
        onSensorData r.1 s r.2.1 r.2.2 := onMessage_sensorData _ _ _ _ hty
    have htail := ih (onSensorData r.1 s r.2.1 r.2.2).1 hrest
      (by rw [onSensorData_activeUserId]; exact hnull)
    have hhead : insertCount (onSensorData r.1 s r.2.1 r.2.2).2 = 0 := by
      rw [insertCount_onSensorData]
      simp [hnull, JsVal.truthy]
    simp only [reportEvents, List.map_cons, run, hstep, insertCount_append] at htail ⊢
    rw [hhead]
    simpa [reportEvents] using htail

/-- C1, counterexample. Observer 3 logs in with a good token (active user 7),
then a device reports pulso 0 while the snapshot is still empty: the active
user is non-null and the message carries a non-null field, yet nothing is
inserted. -/
theorem zero_reading_not_inserted :
    (run initialState
      [(demoEnv 1, ConnEvent.message 3
          (some { type := JsVal.str "web-client", token := JsVal.str "good" }))]).1.activeUserId
      = JsVal.num 7 ∧
    ({ type := JsVal.str "sensor-data", pulso := JsVal.num 0 } : Msg).pulso ≠ JsVal.null ∧
    ({ type := JsVal.str "sensor-data", pulso := JsVal.num 0 } : Msg).pulso ≠ JsVal.undefined ∧
    insertCount (onMessage (demoEnv 2)
      (run initialState
        [(demoEnv 1, ConnEvent.message 3
            (some { type := JsVal.str "web-client", token := JsVal.str "good" }))]).1
      1 (some { type := JsVal.str "sensor-data", pulso := JsVal.num 0 })).2 = 0 := by
  decide

/-- C1, amended. Handling a sensor-data message invokes the Reading Store insert
exactly once if the active user is truthy (not null, undefined, 0, false
or ""), the message carries at least one non-null field among temperatura,
pulso and spo2, and at least one of the three snapshot values after the merge is
truthy; otherwise it is not invoked at all. In particular, while the active
user is null, no sequence of sensor-data messages of any length causes an
insert. -/
theorem insert_iff_active_and_new_and_truthy (env : Env) (s : ServerState) (ws : Conn)
    (data : Msg) (hty : data.type = JsVal.str "sensor-data") :
    (insertCount (onMessage env s ws (some data)).2 =
      if s.activeUserId.truthy = true ∧
          ((data.temperatura ≠ JsVal.undefined ∧ data.temperatura ≠ JsVal.null) ∨
           (data.pulso ≠ JsVal.undefined ∧ data.pulso ≠ JsVal.null) ∨
           (data.spo2 ≠ JsVal.undefined ∧ data.spo2 ≠ JsVal.null)) ∧
          ((onMessage env s ws (some data)).1.lastData.temperatura.truthy = true ∨
           (onMessage env s ws (some data)).1.lastData.pulso.truthy = true ∨
           (onMessage env s ws (some data)).1.lastData.spo2.truthy = true)
      then 1 else 0) ∧
    (∀ rs : List (Env × Conn × Msg), (∀ r ∈ rs, r.2.2.type = JsVal.str "sensor-data") →
      s.activeUserId = JsVal.null → insertCount (run s (reportEvents rs)).2 = 0) := by
  refine ⟨?_, fun rs hall hnull => insertCount_run_reports rs s hall hnull⟩
  rw [onMessage_sensorData env s ws data hty, insertCount_onSensorData,
    onSensorData_lastData]
  simp only [hasNewData_iff]

/-- Witness for C1 (amended): with active user 7 a report of pulso 75 is
inserted once, and two reports from the initial state (no active user) are not
inserted. -/
theorem insert_iff_active_and_new_and_truthy_witness :
    insertCount (onMessage (demoEnv 6) observedState 1
      (some { type := JsVal.str "sensor-data", pulso := JsVal.num 75 })).2 = 1 ∧
    insertCount (run initialState (reportEvents
      [(demoEnv 1, 1, { type := JsVal.str "sensor-data", pulso := JsVal.num 72 }),
       (demoEnv 2, 1, { type := JsVal.str "sensor-data", spo2 := JsVal.num 98 })])).2 = 0 :=
  ⟨((insert_iff_active_and_new_and_truthy (demoEnv 6) observedState 1
      { type := JsVal.str "sensor-data", pulso := JsVal.num 75 } (by decide)).1).trans
        (by decide),
   (insert_iff_active_and_new_and_truthy (demoEnv 1) initialState 1
      { type := JsVal.str "sensor-data", pulso := JsVal.num 72 } (by decide)).2
      [(demoEnv 1, 1, { type := JsVal.str "sensor-data", pulso := JsVal.num 72 }),
       (demoEnv 2, 1, { type := JsVal.str "sensor-data", spo2 := JsVal.num 98 })]
      (by decide) (by decide)⟩

/-- C5, counterexample. Device 1 registered as "d1"; with active user 7 it sends
a sensor-data message whose own deviceId is the number 0: the insert carries
"d1", not the message's deviceId. -/
theorem insert_ignores_falsy_message_deviceId :
    ({ type := JsVal.str "sensor-data", pulso := JsVal.num 75, deviceId := JsVal.num 0 }
      : Msg).deviceId ≠ JsVal.undefined ∧
    (onMessage (demoEnv 6) observedState 1
      (some { type := JsVal.str "sensor-data", pulso := JsVal.num 75,
              deviceId := JsVal.num 0 })).2
      = [Effect.dbInsert (JsVal.num 7) (JsVal.num 75) (JsVal.num 98) (JsVal.num 36)
           (JsVal.str "d1"),
         Effect.send 3 (OutEvent.sensorData (JsVal.num 36) (JsVal.num 75) (JsVal.num 98)
           (some 6))] := by
  decide

/-- C5, amended. Whenever handling a sensor-data message invokes the Reading
Store, the insert's arguments are (active user id, snapshot pulso, snapshot
spo2, snapshot temperatura, deviceId), where the three readings are the full
snapshot values after merging the message and deviceId is the message's own
deviceId if that is truthy (present and not null, false, 0 or ""), otherwise
the deviceId the connection registered with if that is truthy, otherwise the
literal "unknown". -/
theorem insert_arguments (env : Env) (s : ServerState) (ws : Conn) (data : Msg)
    (hty : data.type = JsVal.str "sensor-data") (u p o t d : JsVal)
    (hin : Effect.dbInsert u p o t d ∈ (onMessage env s ws (some data)).2) :
    u = s.activeUserId ∧
    p = (onMessage env s ws (some data)).1.lastData.pulso ∧
    o = (onMessage env s ws (some data)).1.lastData.spo2 ∧
    t = (onMessage env s ws (some data)).1.lastData.temperatura ∧
    d = (if data.deviceId.truthy = true then data.deviceId
         else if (s.conns ws).deviceId.truthy = true then (s.conns ws).deviceId
         else JsVal.str "unknown") := by
  rw [onMessage_sensorData env s ws data hty] at hin ⊢
  simp only [onSensorData, broadcastToWeb, List.mem_append, List.mem_map] at hin
  rcases hin with hin | ⟨c, _, hc⟩
  · split at hin
    · simp only [guardarLecturaEnBD] at hin
      split at hin
      · simp at hin
      · split at hin
        · simp at hin
        · simp only [List.mem_singleton] at hin
          injection hin with h1 h2 h3 h4 h5
          refine ⟨h1, h2, h3, h4, ?_⟩
          rw [h5]
          simp only [JsVal.or]
          split <;> rfl
    · simp at hin
  · cases hc

/-- Witness for C5 (amended): device 1 of `observedState` reports pulso 75
without a deviceId of its own. -/
theorem insert_arguments_witness :
    Effect.dbInsert (JsVal.num 7) (JsVal.num 75) (JsVal.num 98) (JsVal.num 36)
        (JsVal.str "d1") ∈
      (onMessage (demoEnv 6) observedState 1
        (some { type := JsVal.str "sensor-data", pulso := JsVal.num 75 })).2 ∧
    (JsVal.num 7 = observedState.activeUserId ∧
     JsVal.num 75 = (onMessage (demoEnv 6) observedState 1
        (some { type := JsVal.str "sensor-data", pulso := JsVal.num 75 })).1.lastData.pulso ∧
     JsVal.num 98 = (onMessage (demoEnv 6) observedState 1
        (some { type := JsVal.str "sensor-data", pulso := JsVal.num 75 })).1.lastData.spo2 ∧
     JsVal.num 36 = (onMessage (demoEnv 6) observedState 1
        (some { type := JsVal.str "sensor-data",
                pulso := JsVal.num 75 })).1.lastData.temperatura ∧
     JsVal.str "d1" =
      (if ({ type := JsVal.str "sensor-data", pulso := JsVal.num 75 } : Msg).deviceId.truthy
            = true then
          ({ type := JsVal.str "sensor-data", pulso := JsVal.num 75 } : Msg).deviceId
        else if (observedState.conns 1).deviceId.truthy = true then
          (observedState.conns 1).deviceId
        else JsVal.str "unknown")) :=
  ⟨by decide,
   insert_arguments (demoEnv 6) observedState 1
     { type := JsVal.str "sensor-data", pulso := JsVal.num 75 } (by decide)
     (JsVal.num 7) (JsVal.num 75) (JsVal.num 98) (JsVal.num 36) (JsVal.str "d1")
     (by decide)⟩

/-! ## C3: the snapshot is the latest report per field -/

theorem latestReported_cons (field : Msg → JsVal) (initial : JsVal) (m : Msg)
    (ms : List Msg) :
    latestReported field initial (m :: ms) =
      latestReported field (if (field m).present = true then field m else initial) ms := by
  unfold latestReported
  rw [List.reverse_cons, List.find?_append]
  cases hfind : ms.reverse.find?
      (fun m => decide (field m ≠ JsVal.undefined) && decide (field m ≠ JsVal.null)) with
  | some x => simp
  | none =>
    by_cases hp : (decide (field m ≠ JsVal.undefined) && decide (field m ≠ JsVal.null)) = true
    · have hpres : (field m).present = true := hp
      have h1 : List.find?
          (fun m => decide (field m ≠ JsVal.undefined) && decide (field m ≠ JsVal.null)) [m]
          = some m := List.find?_cons_of_pos [] hp
      rw [h1]
      simp [hpres]
    · have hpres : ¬ (field m).present = true := hp
      have h1 : List.find?
          (fun m => decide (field m ≠ JsVal.undefined) && decide (field m ≠ JsVal.null)) [m]
          = none := by
        rw [List.find?_cons_of_neg
          (p := fun m => decide (field m ≠ JsVal.undefined) && decide (field m ≠ JsVal.null))
          [] hp]
        rfl
      rw [h1]
      simp [hpres]

theorem run_reports_field (field : Msg → JsVal) (proj : LastData → JsVal)
    (hproj : ∀ (l : LastData) (m : Msg) (now : Nat),
      proj (mergeReport l m now) = if (field m).present = true then field m else proj l)
    (rs : List (Env × Conn × Msg)) :
    ∀ s : ServerState, (∀ r ∈ rs, r.2.2.type = JsVal.str "sensor-data") →
      proj (run s (reportEvents rs)).1.lastData =
        latestReported field (proj s.lastData) (rs.map (fun r => r.2.2)) := by
  induction rs with
  | nil => intro s _; simp [reportEvents, run, latestReported]
  | cons r rest ih =>
    intro s hall
    have hty : r.2.2.type = JsVal.str "sensor-data" := hall r (by simp)
    have hrest : ∀ x ∈ rest, x.2.2.type = JsVal.str "sensor-data" :=
      fun x hx => hall x (by simp [hx])
    have hstep : step r.1 s (ConnEvent.message r.2.1 (some r.2.2)) =
        onSensorData r.1 s r.2.1 r.2.2 := onMessage_sensorData _ _ _ _ hty
    have htail := ih (onSensorData r.1 s r.2.1 r.2.2).1 hrest
    rw [onSensorData_lastData, hproj] at htail
    simp only [reportEvents, List.map_cons, run, hstep, latestReported_cons] at htail ⊢
    exact htail

/-- C3. For every initial snapshot and every finite sequence of sensor-data
messages (on any connections, at any times, with no disconnect in between),
each of the snapshot fields temperatura, pulso and spo2 afterwards equals the
value the field had in the latest message in which it was present and non-null,
or its initial value if no message carried it. -/
theorem snapshot_is_latest_report_per_field (s : ServerState)
    (rs : List (Env × Conn × Msg))
    (hall : ∀ r ∈ rs, r.2.2.type = JsVal.str "sensor-data") :
    (run s (reportEvents rs)).1.lastData.temperatura =
      latestReported Msg.temperatura s.lastData.temperatura (rs.map (fun r => r.2.2)) ∧
    (run s (reportEvents rs)).1.lastData.pulso =
      latestReported Msg.pulso s.lastData.pulso (rs.map (fun r => r.2.2)) ∧
    (run s (reportEvents rs)).1.lastData.spo2 =
      latestReported Msg.spo2 s.lastData.spo2 (rs.map (fun r => r.2.2)) :=
  ⟨run_reports_field Msg.temperatura LastData.temperatura (fun _ _ _ => rfl) rs s hall,
   run_reports_field Msg.pulso LastData.pulso (fun _ _ _ => rfl) rs s hall,
   run_reports_field Msg.spo2 LastData.spo2 (fun _ _ _ => rfl) rs s hall⟩

/-- Witness for C3: from the initial snapshot, the reports
pulso 72 and spo2 98, then temperatura 36 with pulso null, then pulso 75. -/
theorem snapshot_is_latest_report_per_field_witness :
    (run initialState (reportEvents
      [(demoEnv 1, 1, { type := JsVal.str "sensor-data", pulso := JsVal.num 72,
                        spo2 := JsVal.num 98 }),
       (demoEnv 2, 2, { type := JsVal.str "sensor-data", temperatura := JsVal.num 36,
                        pulso := JsVal.null }),
       (demoEnv 3, 1, { type := JsVal.str "sensor-data",
                        pulso := JsVal.num 75 })])).1.lastData
      = { temperatura := JsVal.num 36, pulso := JsVal.num 75, spo2 := JsVal.num 98,
          timestamp := some 3 } ∧
    (run initialState (reportEvents
      [(demoEnv 1, 1, { type := JsVal.str "sensor-data", pulso := JsVal.num 72,
                        spo2 := JsVal.num 98 }),
       (demoEnv 2, 2, { type := JsVal.str "sensor-data", temperatura := JsVal.num 36,
                        pulso := JsVal.null }),
       (demoEnv 3, 1, { type := JsVal.str "sensor-data",
                        pulso := JsVal.num 75 })])).1.lastData.pulso
      = latestReported Msg.pulso initialState.lastData.pulso
          ([(demoEnv 1, 1, { type := JsVal.str "sensor-data", pulso := JsVal.num 72,
                             spo2 := JsVal.num 98 }),
            (demoEnv 2, 2, { type := JsVal.str "sensor-data", temperatura := JsVal.num 36,
                             pulso := JsVal.null }),
            (demoEnv 3, 1, { type := JsVal.str "sensor-data",
                             pulso := JsVal.num 75 })].map (fun r => r.2.2)) :=
  ⟨by decide,
   (snapshot_is_latest_report_per_field initialState
      [(demoEnv 1, 1, { type := JsVal.str "sensor-data", pulso := JsVal.num 72,
                        spo2 := JsVal.num 98 }),
       (demoEnv 2, 2, { type := JsVal.str "sensor-data", temperatura := JsVal.num 36,
                        pulso := JsVal.null }),
       (demoEnv 3, 1, { type := JsVal.str "sensor-data", pulso := JsVal.num 75 })]
      (by decide)).2.1⟩

/-! ## C2: when the active user is cleared -/

theorem onWebClient_activeUserId (env : Env) (s : ServerState) (ws : Conn) (data : Msg) :
    (onWebClient env s ws data).1.activeUserId =
      if data.token.truthy = true then
        match env.verify data.token with
        | some decodedId => decodedId
        | none => JsVal.null
      else s.activeUserId := rfl

theorem onWebClient_webClients (env : Env) (s : ServerState) (ws : Conn) (data : Msg) :
    (onWebClient env s ws data).1.webClients = setAdd s.webClients ws := rfl

/-- A message that is not a 'web-client' message leaves the active user as it
was. -/
theorem onMessage_activeUserId_of_not_webClient (env : Env) (s : ServerState) (ws : Conn)
    (raw : Option Msg) (h : ∀ data, raw = some data → data.type ≠ JsVal.str "web-client") :
    (onMessage env s ws raw).1.activeUserId = s.activeUserId := by
  unfold onMessage
  split
  · rfl
  · rename_i data
    split
    · rw [onDevice_fst]
    · split
      · rename_i hty
        exact absurd hty (h data rfl)
      · split <;> rfl

/-- The active user after a close: cleared exactly in the web-client branch
when the observer set is empty after the removal. -/
theorem onClose_activeUserId (env : Env) (s : ServerState) (ws : Conn) :
    (onClose env s ws).1.activeUserId =
      if (s.conns ws).clientType = some Role.webClient ∧
          (setDelete s.webClients ws).length = 0 then JsVal.null
      else s.activeUserId := by
  by_cases hd : (s.conns ws).clientType = some Role.device ∧
      (s.conns ws).deviceId.truthy = true
  · have hnw : ¬ ((s.conns ws).clientType = some Role.webClient ∧
        (setDelete s.webClients ws).length = 0) := by
      rw [hd.1]
      exact fun h => absurd h.1 (by decide)
    rw [if_neg hnw]
    by_cases hp : ((s.conns ws).deviceType.printable && (s.conns ws).deviceId.printable) = true
    · rw [onClose_device_logged env s ws hd.1 hd.2 hp]
      rfl
    · rw [onClose_device_thrown env s ws hd.1 hd.2 hp]
  · by_cases hw : (s.conns ws).clientType = some Role.webClient
    · rw [onClose_observer env s ws hw]
      simp [hw]
    · rw [onClose_neither env s ws hd hw]
      simp [hw]

theorem onClose_webClients_of_observer (env : Env) (s : ServerState) (ws : Conn)
    (h : (s.conns ws).clientType = some Role.webClient) :
    (onClose env s ws).1.webClients = setDelete s.webClients ws := by
  simp [onClose, h]

/-- C2, counterexample. Observer 3 of `observedState` logged in with a good
token (active user 7). Connection 4 then sends 'web-client' with a token that
fails verification: the active user is null afterwards, although nobody
disconnected and the observer set grew from size 1 to size 2. -/
theorem failed_token_clears_active_user :
    observedState.activeUserId = JsVal.num 7 ∧
    observedState.webClients = [3] ∧
    (demoEnv 6).verify (JsVal.str "expired") = none ∧
    (onMessage (demoEnv 6) observedState 4
      (some { type := JsVal.str "web-client",
              token := JsVal.str "expired" })).1.activeUserId = JsVal.null ∧
    (onMessage (demoEnv 6) observedState 4
      (some { type := JsVal.str "web-client",
              token := JsVal.str "expired" })).1.webClients = [3, 4] := by
  decide

/-- C2, amended. Over every sequence of connection events, a step changes the
active user from non-null to null exactly when that step is either the
disconnect of an observer that takes the observer set from size 1 to size 0, or
a 'web-client' message with a truthy token whose verification fails (or
yields a null id). In particular, handling a web-client message whose token
fails verification sets the active user to null and still adds the connection
to the observer set. -/
theorem active_user_cleared_iff (env : Env) (closed : List Conn) (s : ServerState)
    (hreach : Reachable closed s) (ev : ConnEvent) (hlive : ev.conn ∉ closed) :
    ((s.activeUserId ≠ JsVal.null ∧ (step env s ev).1.activeUserId = JsVal.null) ↔
      s.activeUserId ≠ JsVal.null ∧
      ((∃ ws, ev = ConnEvent.close ws ∧ (s.conns ws).clientType = some Role.webClient ∧
          s.webClients.length = 1 ∧ (step env s ev).1.webClients.length = 0) ∨
       (∃ ws data, ev = ConnEvent.message ws (some data) ∧
          data.type = JsVal.str "web-client" ∧ data.token.truthy = true ∧
          (env.verify data.token = none ∨ env.verify data.token = some JsVal.null)))) ∧
    (∀ ws data, ev = ConnEvent.message ws (some data) →
        data.type = JsVal.str "web-client" → data.token.truthy = true →
        env.verify data.token = none →
        (step env s ev).1.activeUserId = JsVal.null ∧
        ws ∈ (step env s ev).1.webClients) := by
  have hinv := inv_of_reachable hreach
  refine ⟨?_, ?_⟩
  · cases ev with
    | close ws =>
      simp only [step, ConnEvent.conn] at hlive ⊢
      rw [onClose_activeUserId]
      constructor
      · rintro ⟨hne, hnull⟩
        refine ⟨hne, Or.inl ⟨ws, rfl, ?_⟩⟩
        split at hnull
        · rename_i hc
          have hmem := hinv.observer_mem ws hlive hc.1
          refine ⟨hc.1, length_eq_one_of_setDelete_nil _ _ hinv.nodup hmem hc.2, ?_⟩
          rw [onClose_webClients_of_observer _ _ _ hc.1]
          exact hc.2
        · exact absurd hnull hne
      · rintro ⟨hne, h⟩
        refine ⟨hne, ?_⟩
        rcases h with ⟨ws2, hev, hrole, _, hlen⟩ | ⟨ws2, data, hev, _⟩
        · cases hev
          rw [onClose_webClients_of_observer _ _ _ hrole] at hlen
          simp [hrole, hlen]
        · cases hev
    | message ws raw =>
      simp only [step]
      by_cases hweb : ∃ data, raw = some data ∧ data.type = JsVal.str "web-client"
      · obtain ⟨data, rfl, hty⟩ := hweb
        rw [onMessage_webClient _ _ _ _ hty, onWebClient_activeUserId]
        constructor
        · rintro ⟨hne, hnull⟩
          refine ⟨hne, Or.inr ⟨ws, data, rfl, hty, ?_⟩⟩
          by_cases ht : data.token.truthy = true
          · rw [if_pos ht] at hnull
            refine ⟨ht, ?_⟩
            cases hv : env.verify data.token with
            | none => exact Or.inl rfl
            | some x =>
              rw [hv] at hnull
              simp only at hnull
              exact Or.inr (by rw [hnull])
          · rw [if_neg ht] at hnull
            exact absurd hnull hne
        · rintro ⟨hne, h⟩
          refine ⟨hne, ?_⟩
          rcases h with ⟨_, hev, _⟩ | ⟨ws2, data2, hev, _, ht, hv⟩
          · cases hev
          · cases hev
            rw [if_pos ht]
            rcases hv with hv | hv <;> rw [hv]
      · have hkeep := onMessage_activeUserId_of_not_webClient env s ws raw
          (fun data hd hty => hweb ⟨data, hd, hty⟩)
        rw [hkeep]
        constructor
        · rintro ⟨hne, hnull⟩
          exact absurd hnull hne
        · rintro ⟨_, h⟩
          rcases h with ⟨_, hev, _⟩ | ⟨ws2, data2, hev, hty, _⟩
          · cases hev
          · cases hev
            exact absurd ⟨data2, rfl, hty⟩ hweb
  · intro ws data hev hty ht hv
    subst hev
    simp only [step]
    rw [onMessage_webClient _ _ _ _ hty]
    refine ⟨?_, ?_⟩
    · rw [onWebClient_activeUserId, if_pos ht, hv]
    · rw [onWebClient_webClients]
      exact mem_setAdd_self _ _

theorem observedState_reachable : Reachable [] observedState :=
  Reachable.message _ _ _ twoDevicesState_reachable (List.not_mem_nil _)

/-- Witness for C2 (amended): the only observer 3 of `observedState` disconnects
and the active user 7 is cleared; connection 4 joins with a token that fails
verification, the active user is cleared and 4 is an observer. -/
theorem active_user_cleared_iff_witness :
    (observedState.activeUserId ≠ JsVal.null ∧
      (step (demoEnv 7) observedState (ConnEvent.close 3)).1.activeUserId = JsVal.null) ∧
    ((step (demoEnv 6) observedState (ConnEvent.message 4
        (some { type := JsVal.str "web-client",
                token := JsVal.str "expired" }))).1.activeUserId = JsVal.null ∧
      4 ∈ (step (demoEnv 6) observedState (ConnEvent.message 4
        (some { type := JsVal.str "web-client",
                token := JsVal.str "expired" }))).1.webClients) :=
  ⟨(active_user_cleared_iff (demoEnv 7) [] observedState observedState_reachable
      (ConnEvent.close 3) (List.not_mem_nil _)).1.2
      ⟨by decide, Or.inl ⟨3, rfl, by decide, by decide, by decide⟩⟩,
   (active_user_cleared_iff (demoEnv 6) [] observedState observedState_reachable
      (ConnEvent.message 4
        (some { type := JsVal.str "web-client", token := JsVal.str "expired" }))
      (List.not_mem_nil _)).2 4
      { type := JsVal.str "web-client", token := JsVal.str "expired" } rfl
      (by decide) (by decide) (by decide)⟩

/-! ## C9: what a close removes from the registry -/

/-- C9, counterexample. (a) Connection 1 registers as device "d1", registers
again as device "d2", and closes: the DeviceEntry "d1" still refers to
connection 1. (b) Connection 1 registers as device "d1", connection 2 registers
under the same deviceId "d1" (replacing the entry), and connection 1 closes: the
entry of connection 2, which is still connected, is gone. -/
theorem onClose_not_exactly_owned_entries :
    (run initialState
      [(demoEnv 1, ConnEvent.message 1
          (some { type := JsVal.str "device", deviceType := JsVal.str "pulso",
                  deviceId := JsVal.str "d1" })),
       (demoEnv 2, ConnEvent.message 1
          (some { type := JsVal.str "device", deviceType := JsVal.str "pulso",
                  deviceId := JsVal.str "d2" })),
       (demoEnv 3, ConnEvent.close 1)]).1.devices
      = [(JsVal.str "d1", { ws := 1, type := JsVal.str "pulso", id := JsVal.str "d1" })] ∧
    (run initialState
      [(demoEnv 1, ConnEvent.message 1
          (some { type := JsVal.str "device", deviceType := JsVal.str "pulso",
                  deviceId := JsVal.str "d1" })),
       (demoEnv 2, ConnEvent.message 2
          (some { type := JsVal.str "device", deviceType := JsVal.str "pulso",
                  deviceId := JsVal.str "d1" }))]).1.devices
      = [(JsVal.str "d1", { ws := 2, type := JsVal.str "pulso", id := JsVal.str "d1" })] ∧
    (run initialState
      [(demoEnv 1, ConnEvent.message 1
          (some { type := JsVal.str "device", deviceType := JsVal.str "pulso",
                  deviceId := JsVal.str "d1" })),
       (demoEnv 2, ConnEvent.message 2
          (some { type := JsVal.str "device", deviceType := JsVal.str "pulso",
                  deviceId := JsVal.str "d1" })),
       (demoEnv 3, ConnEvent.close 1)]).1.devices = [] := by
  decide

/-- C9, amended. For every reachable state and every connection c, handling the
close of c changes the Client Registry only as follows. If c's current role is
device, the DeviceEntry stored under the deviceId c registered last is removed,
whichever connection it refers to, and every other DeviceEntry and the whole
observer set stay. If c's current role is observer, c is removed from the
observer set, and every other observer and the whole device map stay. If c
has no role, the registry is unchanged. -/
theorem onClose_registry_effect (env : Env) (closed : List Conn) (s : ServerState)
    (hreach : Reachable closed s) (ws : Conn) :
    ((s.conns ws).clientType = some Role.device →
      (∀ p, p ∈ (onClose env s ws).1.devices ↔ p ∈ s.devices ∧ p.1 ≠ (s.conns ws).deviceId) ∧
      (onClose env s ws).1.webClients = s.webClients) ∧
    ((s.conns ws).clientType = some Role.webClient →
      (∀ c, c ∈ (onClose env s ws).1.webClients ↔ c ∈ s.webClients ∧ c ≠ ws) ∧
      (onClose env s ws).1.devices = s.devices) ∧
    ((s.conns ws).clientType = none →
      (onClose env s ws).1.devices = s.devices ∧
      (onClose env s ws).1.webClients = s.webClients) := by
  refine ⟨?_, ?_, ?_⟩
  · intro hdev
    have hid := (inv_of_reachable hreach).deviceId_truthy ws hdev
    refine ⟨?_, ?_⟩
    · intro p
      rw [onClose_devices_of_device env s ws hdev hid]
      simp [mapDelete]
    · rw [onClose_webClients, if_neg (by rw [hdev]; decide)]
  · intro hweb
    refine ⟨?_, ?_⟩
    · intro c
      rw [onClose_webClients_of_observer _ _ _ hweb]
      exact mem_setDelete _ _ _
    · simp [onClose, hweb]
  · intro hnone
    simp [onClose, hnone]

/-- Witness for C9 (amended): in `observedState` the pulse device 1 closes
(its entry "d1" goes, entry "t1" and observer 3 stay) and observer 3 closes
(the observer set empties, both device entries stay). -/
theorem onClose_registry_effect_witness :
    ((onClose (demoEnv 7) observedState 1).1.devices
        = [(JsVal.str "t1",
            { ws := 2, type := JsVal.str "temperatura", id := JsVal.str "t1" })] ∧
      (onClose (demoEnv 7) observedState 1).1.webClients = observedState.webClients) ∧
    ((∀ c, c ∈ (onClose (demoEnv 7) observedState 3).1.webClients ↔
        c ∈ observedState.webClients ∧ c ≠ 3) ∧
      (onClose (demoEnv 7) observedState 3).1.devices = observedState.devices) :=
  ⟨⟨by decide,
    ((onClose_registry_effect (demoEnv 7) [] observedState observedState_reachable 1).1
      (by decide)).2⟩,
   (onClose_registry_effect (demoEnv 7) [] observedState observedState_reachable 3).2.1
      (by decide)⟩

end ProyectoIB
